import Mathlib

/-!
Shallow embedding of the authentication core of the Car_Shop repository
(backend/config/jwt.js, backend/middleware/auth.js,
backend/controllers/authController.js, backend/routes/auth.js).

Modelling conventions:
- A signed JWT string is modelled structurally (`Token`): two calls of
  jwt.sign with the same payload, secret, issue time and expiry produce
  the identical string, and verification recovers the payload exactly
  when the secret matches and the token is unexpired; structural
  equality of `Token` models string equality of the signed strings.
- Strings that are not well-formed signed tokens (tampered cookies,
  arbitrary header contents) are `TokenStr.garbage`.
- Time is seconds since epoch as `Nat`; the source's `15m` and `7d`
  expiry strings are 900 and 604800 seconds.
- JavaScript truthiness on strings (`if (refreshToken)`, `authHeader &&`,
  `if (!token)`) is modelled explicitly: the empty string is falsy.
- `process.env` is an `Env` record of `Option String`; `x || 'TODO'`
  falls back on the default when the variable is unset or empty.
- The in-memory array `validRefreshTokens` is a `List TokenStr`
  parameter threaded through each handler, returned updated.
-/

namespace CarShop

/-- The identity claims embedded in a token: `{ id, username, email, role }`
as built by the controllers. -/
structure Identity where
  id : Nat
  username : String
  email : String
  role : String
deriving DecidableEq, Repr

/-- The environment variables read by backend/config/jwt.js. `none` models an
unset variable. -/
structure Env where
  jwtAccessSecret : Option String
  jwtRefreshSecret : Option String
deriving DecidableEq, Repr

/-- `process.env.JWT_ACCESS_SECRET || 'TODO'` (jwt.js line 6): JS `||` takes
the fallback when the variable is unset or the empty string (falsy). -/
def ACCESS_TOKEN_SECRET (env : Env) : String :=
  match env.jwtAccessSecret with
  | none => "TODO"
  | some s => if s = "" then "TODO" else s

/-- `process.env.JWT_REFRESH_SECRET || 'TODO'` (jwt.js line 7). -/
def REFRESH_TOKEN_SECRET (env : Env) : String :=
  match env.jwtRefreshSecret with
  | none => "TODO"
  | some s => if s = "" then "TODO" else s

/-- `ACCESS_TOKEN_EXPIRES = '15m'` (jwt.js line 10), in seconds. -/
def ACCESS_TOKEN_EXPIRES : Nat := 900

/-- `REFRESH_TOKEN_EXPIRES = '7d'` (jwt.js line 11), in seconds. -/
def REFRESH_TOKEN_EXPIRES : Nat := 604800

/-- A signed JWT, modelled structurally: payload claims, the secret it was
signed with, the issue time (`iat`) and the expiry duration (`expiresIn`).
Structural equality models equality of the signed strings. -/
structure Token where
  payload : Identity
  secret : String
  iat : Nat
  expSec : Nat
deriving DecidableEq, Repr

/-- The `{ accessToken, refreshToken }` object returned by `createTokenPair`. -/
structure TokenPair where
  accessToken : Token
  refreshToken : Token
deriving DecidableEq, Repr

/-- `createTokenPair` (jwt.js lines 14-26): signs the payload twice, once with
the access secret and 15m expiry, once with the refresh secret and 7d expiry. -/
def createTokenPair (env : Env) (userPayload : Identity) (now : Nat) : TokenPair :=
  { accessToken := ⟨userPayload, ACCESS_TOKEN_SECRET env, now, ACCESS_TOKEN_EXPIRES⟩
    refreshToken := ⟨userPayload, REFRESH_TOKEN_SECRET env, now, REFRESH_TOKEN_EXPIRES⟩ }

/-- The error classes thrown by `jwt.verify` and distinguished by name in
middleware/auth.js: `TokenExpiredError`, `JsonWebTokenError`, and any other
error (`NotBeforeError`), which falls into the middleware's final else. -/
inductive VerifyError where
  | tokenExpired
  | jsonWebToken
  | notBefore
deriving DecidableEq, Repr

/-- A string presented where a JWT is expected: either a well-formed signed
token or any other string (malformed / tampered). -/
inductive TokenStr where
  | signed (t : Token)
  | garbage (s : String)
deriving DecidableEq, Repr

/-- JS string truthiness for a token string: only the empty string is falsy;
a well-formed signed JWT string is never empty. -/
def tsFalsy : TokenStr → Bool
  | .signed _ => false
  | .garbage s => s = ""

/-- `jwt.verify(token, secret)` at time `now`: rejects a malformed string or a
wrong signature with `JsonWebTokenError`, then rejects a past-expiry token with
`TokenExpiredError`, otherwise returns the decoded payload claims. -/
def jwtVerify (ts : TokenStr) (secret : String) (now : Nat) : Except VerifyError Identity :=
  match ts with
  | .garbage _ => .error .jsonWebToken
  | .signed t =>
    if t.secret ≠ secret then .error .jsonWebToken
    else if t.iat + t.expSec ≤ now then .error .tokenExpired
    else .ok t.payload

/-- `validateAccessToken` (jwt.js lines 29-35): `jwt.verify` with the access
secret; errors propagate to the caller. -/
def validateAccessToken (env : Env) (token : TokenStr) (now : Nat) : Except VerifyError Identity :=
  jwtVerify token (ACCESS_TOKEN_SECRET env) now

/-- `validateRefreshToken` (jwt.js lines 38-44): `jwt.verify` with the refresh
secret. -/
def validateRefreshToken (env : Env) (token : TokenStr) (now : Nat) : Except VerifyError Identity :=
  jwtVerify token (REFRESH_TOKEN_SECRET env) now

/-- The registry membership test: `validRefreshTokens.includes(refreshToken)`
(authController.js line 147); the spec's `isValid`. -/
def isValidToken (registry : List TokenStr) (token : TokenStr) : Bool :=
  registry.contains token

/-- The rotation step of `refreshAccessToken` (authController.js lines
163-165):

    const tokenIndex = validRefreshTokens.indexOf(refreshToken);
    validRefreshTokens[tokenIndex] = newTokens.refreshToken;

JS `indexOf` yields -1 when the token is absent, and `arr[-1] = x` sets a
non-index property, leaving the array's elements unchanged; Lean's
`List.indexOf` yields `length` when absent and `List.set` past the end is the
identity, which has the same observable element-level semantics. -/
def rotateTokens (registry : List TokenStr) (oldTok newTok : TokenStr) : List TokenStr :=
  let tokenIndex := registry.indexOf oldTok
  registry.set tokenIndex newTok

/-! ## Auth middleware (backend/middleware/auth.js) -/

/-- JS `String.prototype.split(' ')` over the character list: every single
space character is a separator, adjacent separators yield empty fields, and
the empty string splits to `[""]`. `acc` is the current field reversed. -/
def jsSplitSpaceAux : List Char → List Char → List (List Char)
  | [], acc => [acc.reverse]
  | c :: rest, acc =>
    if c = ' ' then acc.reverse :: jsSplitSpaceAux rest []
    else jsSplitSpaceAux rest (c :: acc)

/-- JS `header.split(' ')` as a list of strings. -/
def jsSplitSpace (s : String) : List String :=
  (jsSplitSpaceAux s.toList []).map (fun cs => String.mk cs)

/-- `authHeader && authHeader.split(' ')[1]` (auth.js line 9): with a missing
or empty (falsy) header the conjunction short-circuits; otherwise the header
is split on single spaces and the second field taken, `undefined` when there
is no second field. The result feeds a truthiness test (`if (!token)`), so a
falsy token (absent or the empty string) is collapsed to `none`. -/
def extractBearerToken (authHeader : Option String) : Option String :=
  match authHeader with
  | none => none
  | some h =>
    if h = "" then none
    else
      match (jsSplitSpace h).get? 1 with
      | none => none
      | some t => if t = "" then none else some t

/-- The observable outcome of the `checkAuth` middleware: an error response
(status plus the `expired: true` flag when present) or passing control to the
next handler with `req.user` set. -/
inductive AuthOutcome where
  | reject (status : Nat) (expired : Bool)
  | proceed (user : Identity)
deriving DecidableEq, Repr

/-- `checkAuth` (auth.js lines 6-33). `verify` is the imported
`verifyAccessToken`, abstracted as a function from the extracted token string
to its verification outcome. No token yields 401; `TokenExpiredError` yields
401 with `expired: true`; `JsonWebTokenError` yields 403; any other error
yields 403; success attaches the decoded user and proceeds. -/
def checkAuth (verify : String → Except VerifyError Identity)
    (authHeader : Option String) : AuthOutcome :=
  match extractBearerToken authHeader with
  | none => .reject 401 false
  | some token =>
    match verify token with
    | .ok decodedUser => .proceed decodedUser
    | .error .tokenExpired => .reject 401 true
    | .error .jsonWebToken => .reject 403 false
    | .error .notBefore => .reject 403 false

/-! ## Session controllers (backend/controllers/authController.js) -/

/-- A row of the `users` table: the `password` column stores the bcrypt hash. -/
structure UserRecord where
  id : Nat
  username : String
  email : String
  password : String
  role : String
deriving DecidableEq, Repr

/-- The body of a registration request; `none` models an absent field. -/
structure RegisterReq where
  username : Option String
  email : Option String
  password : Option String
  role : Option String
deriving DecidableEq, Repr

/-- JS truthiness of an optional string field: absent or empty is falsy. -/
def fieldTruthy : Option String → Bool
  | none => false
  | some s => ¬ s = ""

/-- The destructuring default `role = 'customer'` (authController.js line 11):
applies exactly when the field is absent. -/
def roleOrDefault : Option String → String
  | none => "customer"
  | some r => r

/-- The `role` rule of `validateRegistration` (routes/auth.js lines 40-44):
`.optional().isIn(['admin', 'customer'])` — an absent field is skipped, a
present one must be one of the two roles. -/
def roleFieldValid : Option String → Bool
  | none => true
  | some r => r = "admin" ∨ r = "customer"

/-- The response of the registration handler. -/
inductive RegisterResp where
  | badRequest (message : String)
  | conflict (message : String)
  | created (message : String) (accessToken : Token) (user : Identity)
deriving DecidableEq, Repr

/-- Everything a registration request changes or returns: the HTTP response,
the users table, the refresh-token registry, and the `refreshToken` cookie the
response sets (if any). -/
structure RegisterOutcome where
  resp : RegisterResp
  db : List UserRecord
  registry : List TokenStr
  cookie : Option TokenStr
deriving DecidableEq, Repr

/-- `SELECT id FROM users WHERE username = ? OR email = ?` with parameters
`[username, email]` (authController.js lines 19-22), the store modelled as a
list with exact string equality. -/
def usersMatchingUsernameOrEmail (db : List UserRecord) (username email : String) :
    List UserRecord :=
  db.filter (fun r => r.username = username ∨ r.email = email)

/-- `registerUser` (authController.js lines 9-70). `hash` is `bcrypt.hash`
with its salt, a black-box one-way transform; `nextId` is the
auto-incremented id the INSERT returns (`insertResult.insertId`). -/
def registerUser (env : Env) (hash : String → String) (nextId : Nat)
    (db : List UserRecord) (registry : List TokenStr)
    (req : RegisterReq) (now : Nat) : RegisterOutcome :=
  if ¬ (fieldTruthy req.username ∧ fieldTruthy req.email ∧ fieldTruthy req.password) then
    ⟨.badRequest "All fields are required", db, registry, none⟩
  else
    let username := (req.username).getD ""
    let email := (req.email).getD ""
    let password := (req.password).getD ""
    let role := roleOrDefault req.role
    if usersMatchingUsernameOrEmail db username email ≠ [] then
      ⟨.conflict "Username or email already taken", db, registry, none⟩
    else
      let hashedPassword := hash password
      let db2 := db ++ [⟨nextId, username, email, hashedPassword, role⟩]
      let tokenPayload : Identity := ⟨nextId, username, email, role⟩
      let tokens := createTokenPair env tokenPayload now
      let registry2 := registry ++ [.signed tokens.refreshToken]
      ⟨.created "User registered successfully" tokens.accessToken tokenPayload,
        db2, registry2, some (.signed tokens.refreshToken)⟩

/-- The body of a login request. -/
structure LoginReq where
  username : Option String
  password : Option String
deriving DecidableEq, Repr

/-- The response of the login handler. -/
inductive LoginResp where
  | badRequest (message : String)
  | unauthorized (message : String)
  | ok (message : String) (accessToken : Token) (user : Identity)
deriving DecidableEq, Repr

/-- Everything a login request changes or returns. -/
structure LoginOutcome where
  resp : LoginResp
  registry : List TokenStr
  cookie : Option TokenStr
deriving DecidableEq, Repr

/-- `SELECT * FROM users WHERE username = ? OR email = ?` with parameters
`[username, username]` (authController.js lines 82-85): the one submitted
value is matched against both columns. -/
def usersMatchingLogin (db : List UserRecord) (username : String) : List UserRecord :=
  db.filter (fun r => r.username = username ∨ r.email = username)

/-- `loginUser` (authController.js lines 73-135). `compare` is
`bcrypt.compare(plaintext, storedHash)`. -/
def loginUser (env : Env) (compare : String → String → Bool)
    (db : List UserRecord) (registry : List TokenStr)
    (req : LoginReq) (now : Nat) : LoginOutcome :=
  if ¬ (fieldTruthy req.username ∧ fieldTruthy req.password) then
    ⟨.badRequest "Username and password required", registry, none⟩
  else
    let username := (req.username).getD ""
    let password := (req.password).getD ""
    match usersMatchingLogin db username with
    | [] => ⟨.unauthorized "Invalid login credentials", registry, none⟩
    | user :: _ =>
      if ¬ compare password user.password then
        ⟨.unauthorized "Invalid login credentials", registry, none⟩
      else
        let tokenPayload : Identity := ⟨user.id, user.username, user.email, user.role⟩
        let tokens := createTokenPair env tokenPayload now
        ⟨.ok "Login successful" tokens.accessToken tokenPayload,
          registry ++ [.signed tokens.refreshToken],
          some (.signed tokens.refreshToken)⟩

/-- The pair a client can distinguish across login responses: HTTP status and
message. -/
def loginObservable : LoginResp → Nat × String
  | .badRequest m => (400, m)
  | .unauthorized m => (401, m)
  | .ok m _ _ => (200, m)

/-- Everything a refresh request changes or returns. -/
structure RefreshOutcome where
  status : Nat
  message : Option String
  accessToken : Option Token
  user : Option Identity
  registry : List TokenStr
  cookie : Option TokenStr
deriving DecidableEq, Repr

/-- `refreshAccessToken` (authController.js lines 138-193). The cookie is
`req.cookies.refreshToken` (`none` when absent); `!refreshToken` is also true
for an empty cookie value. Order: truthiness check (401), registry membership
(403), codec verification (403 on throw, registry untouched), then issue,
rotate, set cookie, 200. -/
def refreshAccessToken (env : Env) (registry : List TokenStr)
    (cookie : Option TokenStr) (now : Nat) : RefreshOutcome :=
  match cookie with
  | none => ⟨401, some "Refresh token not found", none, none, registry, none⟩
  | some refreshToken =>
    if tsFalsy refreshToken then
      ⟨401, some "Refresh token not found", none, none, registry, none⟩
    else if ¬ registry.contains refreshToken then
      ⟨403, some "Invalid refresh token", none, none, registry, none⟩
    else
      match validateRefreshToken env refreshToken now with
      | .error _ =>
        ⟨403, some "Refresh token expired or invalid", none, none, registry, none⟩
      | .ok decodedToken =>
        let newTokens := createTokenPair env decodedToken now
        let registry2 := rotateTokens registry refreshToken (.signed newTokens.refreshToken)
        ⟨200, none, some newTokens.accessToken, some decodedToken,
          registry2, some (.signed newTokens.refreshToken)⟩

/-- Everything a logout request changes or returns: status, the registry, and
whether the cookie was cleared. -/
structure LogoutOutcome where
  status : Nat
  registry : List TokenStr
  cookieCleared : Bool
deriving DecidableEq, Repr

/-- `logoutUser` (authController.js lines 196-213): when the cookie is present
and truthy, filter its token out of the registry; always clear the cookie and
return 200. -/
def logoutUser (registry : List TokenStr) (cookie : Option TokenStr) : LogoutOutcome :=
  let registry2 :=
    match cookie with
    | none => registry
    | some refreshToken =>
      if tsFalsy refreshToken then registry
      else registry.filter (fun token => token ≠ refreshToken)
  ⟨200, registry2, true⟩

end CarShop

namespace CarShop

/-! ## Helper lemmas -/

/-- Filtering twice with the same predicate equals filtering once. -/
lemma filter_idem {α : Type} (p : α → Bool) (l : List α) :
    (l.filter p).filter p = l.filter p := by
  induction l with
  | nil => rfl
  | cons x xs ih =>
    by_cases h : p x
    · simp [List.filter_cons, h, ih]
    · simp [List.filter_cons, h, ih]

/-- Writing at `indexOf` of an absent element leaves the list unchanged
(the index is out of range). -/
lemma set_indexOf_of_not_mem {α : Type} [DecidableEq α] (l : List α) (a b : α)
    (h : a ∉ l) : l.set (l.indexOf a) b = l := by
  induction l with
  | nil => rfl
  | cons x xs ih =>
    have hxa : x ≠ a := fun e => h (e ▸ List.mem_cons_self x xs)
    have hax : a ∉ xs := fun hm => h (List.mem_cons_of_mem x hm)
    rw [List.indexOf_cons_ne _ hxa]
    show x :: xs.set (xs.indexOf a) b = x :: xs
    rw [ih hax]

/-- Writing `b` at `indexOf` of a present element puts `b` in the list. -/
lemma mem_set_indexOf {α : Type} [DecidableEq α] (l : List α) (a b : α)
    (h : a ∈ l) : b ∈ l.set (l.indexOf a) b := by
  induction l with
  | nil => cases h
  | cons x xs ih =>
    by_cases hxa : x = a
    · subst hxa
      rw [List.indexOf_cons_self]
      exact List.mem_cons_self b _
    · have hax : a ∈ xs := by
        cases h with
        | head => exact absurd rfl hxa
        | tail _ hm => exact hm
      rw [List.indexOf_cons_ne _ hxa]
      show b ∈ x :: xs.set (xs.indexOf a) b
      exact List.mem_cons_of_mem x (ih hax)

/-- Overwriting the unique occurrence of `a` with some other element removes
`a` from the list. -/
lemma not_mem_set_indexOf_of_count_one {α : Type} [DecidableEq α] (l : List α) (a b : α)
    (hcount : l.count a = 1) (hne : a ≠ b) : a ∉ l.set (l.indexOf a) b := by
  induction l with
  | nil => simp
  | cons x xs ih =>
    by_cases hxa : x = a
    · subst hxa
      rw [List.indexOf_cons_self]
      have hzero : xs.count x = 0 := by
        simp [List.count_cons] at hcount
        omega
      have hnotmem : x ∉ xs := List.count_eq_zero.mp hzero
      intro hmem
      cases hmem with
      | head => exact hne rfl
      | tail _ hm => exact hnotmem hm
    · have hcxs : xs.count a = 1 := by
        simp [List.count_cons, Ne.symm hxa] at hcount
        exact hcount
      rw [List.indexOf_cons_ne _ hxa]
      intro hmem
      cases hmem with
      | head => exact hxa rfl
      | tail _ hm => exact ih hcxs hm

/-! ## Claim C1 — rotation -/

/-- Claim C1, counterexample. The claim states that `rotate(old, new)` with
`old` absent from the registry is a no-op that still inserts `new`, and that
after any rotation `isValid(old) == false`. On the code, rotating an absent
token writes at array index -1, inserting nothing, so `isValid(new)` stays
false; and when `old` occurs twice, only the first occurrence is replaced, so
`isValid(old)` stays true. -/
theorem rotate_absent_old_does_not_insert_new :
    rotateTokens [] (TokenStr.garbage "old") (TokenStr.garbage "new") = []
    ∧ isValidToken (rotateTokens [] (TokenStr.garbage "old") (TokenStr.garbage "new"))
        (TokenStr.garbage "new") = false
    ∧ isValidToken
        (rotateTokens [TokenStr.garbage "old", TokenStr.garbage "old"]
          (TokenStr.garbage "old") (TokenStr.garbage "new"))
        (TokenStr.garbage "old") = true :=
  ⟨rfl, rfl, rfl⟩

/-- Claim C1, amended. When the old token occurs exactly once in the registry
and the new token differs from it, rotation makes `isValid(old)` false and
`isValid(new)` true; when the old token is absent, rotation leaves the
registry unchanged — in particular it does not insert the new token. -/
theorem rotate_registry_correct (registry : List TokenStr) (oldTok newTok : TokenStr) :
    (registry.count oldTok = 1 → oldTok ≠ newTok →
      isValidToken (rotateTokens registry oldTok newTok) oldTok = false
      ∧ isValidToken (rotateTokens registry oldTok newTok) newTok = true)
    ∧ (oldTok ∉ registry → rotateTokens registry oldTok newTok = registry) := by
  constructor
  · intro hcount hne
    constructor
    · simp only [isValidToken, rotateTokens, List.elem_eq_mem, decide_eq_false_iff_not]
      exact not_mem_set_indexOf_of_count_one registry oldTok newTok hcount hne
    · simp only [isValidToken, rotateTokens, List.elem_eq_mem, decide_eq_true_eq]
      have hmem : oldTok ∈ registry := by
        have := List.count_pos_iff.mp (by omega : 0 < registry.count oldTok)
        exact this
      exact mem_set_indexOf registry oldTok newTok hmem
  · intro habs
    exact set_indexOf_of_not_mem registry oldTok newTok habs

/-- Witness for `rotate_registry_correct` at a concrete registry. -/
theorem rotate_registry_correct_witness :
    ([TokenStr.garbage "old", TokenStr.garbage "other"].count (TokenStr.garbage "old") = 1
      ∧ TokenStr.garbage "old" ≠ TokenStr.garbage "new")
    ∧ isValidToken (rotateTokens [TokenStr.garbage "old", TokenStr.garbage "other"]
        (TokenStr.garbage "old") (TokenStr.garbage "new")) (TokenStr.garbage "old") = false
    ∧ isValidToken (rotateTokens [TokenStr.garbage "old", TokenStr.garbage "other"]
        (TokenStr.garbage "old") (TokenStr.garbage "new")) (TokenStr.garbage "new") = true
    ∧ TokenStr.garbage "x" ∉ ([] : List TokenStr)
    ∧ rotateTokens [] (TokenStr.garbage "x") (TokenStr.garbage "y") = [] := by
  refine ⟨⟨by decide, by decide⟩, ?_, ?_, by decide, ?_⟩
  · exact ((rotate_registry_correct _ _ _).1 (by decide) (by decide)).1
  · exact ((rotate_registry_correct _ _ _).1 (by decide) (by decide)).2
  · exact (rotate_registry_correct [] (TokenStr.garbage "x") (TokenStr.garbage "y")).2 (by decide)

/-! ## Claim C2 — secret isolation -/

/-- Claim C2, counterexample. With both secret environment variables unset,
the two secrets are both the default string and hence equal, and an unexpired
refresh token passes access-token verification. -/
theorem default_secrets_equal_and_cross_verify :
    ACCESS_TOKEN_SECRET ⟨none, none⟩ = REFRESH_TOKEN_SECRET ⟨none, none⟩
    ∧ validateAccessToken ⟨none, none⟩
        (.signed (createTokenPair ⟨none, none⟩
          ⟨1, "alice", "alice@x.com", "customer"⟩ 0).refreshToken) 0
      = .ok ⟨1, "alice", "alice@x.com", "customer"⟩ :=
  ⟨rfl, rfl⟩

/-- Claim C2, amended. Whenever the configured access and refresh secrets
differ, the refresh token of an issued pair fails access verification and the
access token fails refresh verification, regardless of the verification
time. -/
theorem distinct_secrets_isolate (env : Env) (identity : Identity) (t tNow : Nat)
    (h : ACCESS_TOKEN_SECRET env ≠ REFRESH_TOKEN_SECRET env) :
    validateAccessToken env (.signed (createTokenPair env identity t).refreshToken) tNow
      = .error .jsonWebToken
    ∧ validateRefreshToken env (.signed (createTokenPair env identity t).accessToken) tNow
      = .error .jsonWebToken := by
  constructor
  · simp only [validateAccessToken, createTokenPair, jwtVerify]
    rw [if_pos (Ne.symm h)]
  · simp only [validateRefreshToken, createTokenPair, jwtVerify]
    rw [if_pos h]

/-- Witness for `distinct_secrets_isolate` at a concrete environment. -/
theorem distinct_secrets_isolate_witness :
    ACCESS_TOKEN_SECRET ⟨some "secretA", some "secretB"⟩
      ≠ REFRESH_TOKEN_SECRET ⟨some "secretA", some "secretB"⟩
    ∧ validateAccessToken ⟨some "secretA", some "secretB"⟩
        (.signed (createTokenPair ⟨some "secretA", some "secretB"⟩
          ⟨1, "alice", "alice@x.com", "customer"⟩ 0).refreshToken) 0
      = .error .jsonWebToken :=
  ⟨by decide,
    (distinct_secrets_isolate ⟨some "secretA", some "secretB"⟩
      ⟨1, "alice", "alice@x.com", "customer"⟩ 0 0 (by decide)).1⟩

/-! ## Claim C3 — auth middleware -/

/-- Claim C3, counterexample. The claim states a wrong scheme yields no token
and hence a 401. The middleware takes the second space-separated field without
checking the scheme: with header `Basic sometoken` it extracts `sometoken`
and, when verification rejects it, responds 403, not 401. -/
theorem checkAuth_wrong_scheme_counterexample :
    extractBearerToken (some "Basic sometoken") = some "sometoken"
    ∧ checkAuth (fun _ => .error .jsonWebToken) (some "Basic sometoken") = .reject 403 false :=
  ⟨by decide, by decide⟩

/-- Claim C3, amended. The middleware takes the second space-separated field
of the Authorization header as the token regardless of scheme; a missing or
empty header, or a header without a non-empty second field, yields no token.
No token yields 401; an expired token yields 401 with the expired flag; any
other verification failure yields 403; on success the decoded identity is
attached and control proceeds. The concrete equations document the extraction
behaviour on representative headers. -/
theorem checkAuth_status_mapping (verify : String → Except VerifyError Identity)
    (authHeader : Option String) :
    (extractBearerToken authHeader = none → checkAuth verify authHeader = .reject 401 false)
    ∧ (∀ token, extractBearerToken authHeader = some token →
        (verify token = .error .tokenExpired → checkAuth verify authHeader = .reject 401 true)
        ∧ (verify token = .error .jsonWebToken → checkAuth verify authHeader = .reject 403 false)
        ∧ (verify token = .error .notBefore → checkAuth verify authHeader = .reject 403 false)
        ∧ (∀ u, verify token = .ok u → checkAuth verify authHeader = .proceed u))
    ∧ extractBearerToken none = none
    ∧ extractBearerToken (some "") = none
    ∧ extractBearerToken (some "Bearer tok") = some "tok"
    ∧ extractBearerToken (some "Basic tok") = some "tok"
    ∧ extractBearerToken (some "Bearer") = none
    ∧ extractBearerToken (some "Bearer ") = none := by
  refine ⟨?_, ?_, rfl, by decide, by decide, by decide, by decide, by decide⟩
  · intro h
    simp [checkAuth, h]
  · intro token h
    refine ⟨?_, ?_, ?_, ?_⟩
    · intro hv; simp [checkAuth, h, hv]
    · intro hv; simp [checkAuth, h, hv]
    · intro hv; simp [checkAuth, h, hv]
    · intro u hv; simp [checkAuth, h, hv]

/-- Witness for `checkAuth_status_mapping`: the expired branch at a concrete
header and verifier. -/
theorem checkAuth_status_mapping_witness :
    extractBearerToken (some "Bearer expiredtok") = some "expiredtok"
    ∧ (fun _ : String => (.error .tokenExpired : Except VerifyError Identity)) "expiredtok"
        = .error .tokenExpired
    ∧ checkAuth (fun _ => .error .tokenExpired) (some "Bearer expiredtok") = .reject 401 true :=
  ⟨by decide, rfl,
    (((checkAuth_status_mapping (fun _ => .error .tokenExpired) (some "Bearer expiredtok")).2.1
      "expiredtok" (by decide)).1 rfl)⟩

/-! ## Claim C4 — refresh error paths -/

/-- Claim C4. For every refresh request: with no cookie the result is 401 and
the registry is unchanged; with a (non-empty) cookie token absent from the
registry the result is 403 and the registry is unchanged; with a registered
token that fails codec verification the result is 403 and the stale token is
left in the registry. -/
theorem refresh_error_paths (env : Env) (registry : List TokenStr)
    (cookie : Option TokenStr) (now : Nat) :
    (cookie = none →
      (refreshAccessToken env registry cookie now).status = 401
      ∧ (refreshAccessToken env registry cookie now).registry = registry)
    ∧ (∀ ts, cookie = some ts → tsFalsy ts = false → registry.contains ts = false →
        (refreshAccessToken env registry cookie now).status = 403
        ∧ (refreshAccessToken env registry cookie now).registry = registry)
    ∧ (∀ ts e, cookie = some ts → tsFalsy ts = false → registry.contains ts = true →
        validateRefreshToken env ts now = .error e →
        (refreshAccessToken env registry cookie now).status = 403
        ∧ (refreshAccessToken env registry cookie now).registry = registry) := by
  refine ⟨?_, ?_, ?_⟩
  · rintro rfl
    exact ⟨rfl, rfl⟩
  · rintro ts rfl hf hc
    simp only [List.elem_eq_mem, decide_eq_false_iff_not] at hc
    simp [refreshAccessToken, hf, hc]
  · rintro ts e rfl hf hc hv
    simp only [List.elem_eq_mem, decide_eq_true_eq] at hc
    simp [refreshAccessToken, hf, hc, hv]

/-- Witness for `refresh_error_paths`: all three error paths at concrete
inputs (a malformed registered token fails verification). -/
theorem refresh_error_paths_witness :
    ((refreshAccessToken ⟨none, none⟩ [] none 0).status = 401
      ∧ (refreshAccessToken ⟨none, none⟩ [] none 0).registry = [])
    ∧ (tsFalsy (TokenStr.garbage "x") = false
      ∧ ([] : List TokenStr).contains (TokenStr.garbage "x") = false
      ∧ (refreshAccessToken ⟨none, none⟩ [] (some (TokenStr.garbage "x")) 0).status = 403)
    ∧ ([TokenStr.garbage "x"].contains (TokenStr.garbage "x") = true
      ∧ validateRefreshToken ⟨none, none⟩ (TokenStr.garbage "x") 0 = .error .jsonWebToken
      ∧ (refreshAccessToken ⟨none, none⟩ [TokenStr.garbage "x"]
          (some (TokenStr.garbage "x")) 0).status = 403
      ∧ (refreshAccessToken ⟨none, none⟩ [TokenStr.garbage "x"]
          (some (TokenStr.garbage "x")) 0).registry = [TokenStr.garbage "x"]) := by
  refine ⟨(refresh_error_paths ⟨none, none⟩ [] none 0).1 rfl,
    ⟨rfl, rfl, ?_⟩, ⟨by decide, rfl, ?_, ?_⟩⟩
  · exact ((refresh_error_paths ⟨none, none⟩ [] (some (TokenStr.garbage "x")) 0).2.1
      (TokenStr.garbage "x") rfl rfl rfl).1
  · exact ((refresh_error_paths ⟨none, none⟩ [TokenStr.garbage "x"]
      (some (TokenStr.garbage "x")) 0).2.2
      (TokenStr.garbage "x") .jsonWebToken rfl rfl (by decide) rfl).1
  · exact ((refresh_error_paths ⟨none, none⟩ [TokenStr.garbage "x"]
      (some (TokenStr.garbage "x")) 0).2.2
      (TokenStr.garbage "x") .jsonWebToken rfl rfl (by decide) rfl).2

/-! ## Claim C5 — access token round trip -/

/-- Claim C5. Verifying the access token of a freshly issued pair with the
access verifier, at any time before its expiry, yields the issuing identity
back. -/
theorem verifyAccess_issue_roundTrip (env : Env) (identity : Identity) (t tNow : Nat)
    (h : tNow < t + ACCESS_TOKEN_EXPIRES) :
    validateAccessToken env (.signed (createTokenPair env identity t).accessToken) tNow
      = .ok identity := by
  simp only [validateAccessToken, createTokenPair, jwtVerify, ACCESS_TOKEN_EXPIRES] at *
  rw [if_neg (by simp), if_neg (by omega)]

/-- Witness for `verifyAccess_issue_roundTrip` at issue time zero. -/
theorem verifyAccess_issue_roundTrip_witness :
    (0 : Nat) < 0 + ACCESS_TOKEN_EXPIRES
    ∧ validateAccessToken ⟨none, none⟩
        (.signed (createTokenPair ⟨none, none⟩
          ⟨1, "alice", "alice@x.com", "customer"⟩ 0).accessToken) 0
      = .ok ⟨1, "alice", "alice@x.com", "customer"⟩ :=
  ⟨by decide, verifyAccess_issue_roundTrip ⟨none, none⟩
    ⟨1, "alice", "alice@x.com", "customer"⟩ 0 0 (by decide)⟩

/-! ## Claim C6 — login failure indistinguishability -/

/-- Claim C6. Any two failing login runs — one failing because no user
matches, one failing because the credential check rejects an existing user —
produce the same observable response: status 401 with the same generic
message, across arbitrary environments, stores, registries and credential
checkers. -/
theorem login_failure_indistinguishable
    (env1 : Env) (cmp1 : String → String → Bool) (db1 : List UserRecord)
    (reg1 : List TokenStr) (req1 : LoginReq) (now1 : Nat)
    (env2 : Env) (cmp2 : String → String → Bool) (db2 : List UserRecord)
    (reg2 : List TokenStr) (req2 : LoginReq) (now2 : Nat)
    (u2 : UserRecord) (rest2 : List UserRecord)
    (h1u : fieldTruthy req1.username = true) (h1p : fieldTruthy req1.password = true)
    (h1find : usersMatchingLogin db1 ((req1.username).getD "") = [])
    (h2u : fieldTruthy req2.username = true) (h2p : fieldTruthy req2.password = true)
    (h2find : usersMatchingLogin db2 ((req2.username).getD "") = u2 :: rest2)
    (h2cmp : cmp2 ((req2.password).getD "") u2.password = false) :
    loginObservable (loginUser env1 cmp1 db1 reg1 req1 now1).resp
      = loginObservable (loginUser env2 cmp2 db2 reg2 req2 now2).resp
    ∧ loginObservable (loginUser env1 cmp1 db1 reg1 req1 now1).resp
      = (401, "Invalid login credentials") := by
  have e1 : (loginUser env1 cmp1 db1 reg1 req1 now1).resp
      = .unauthorized "Invalid login credentials" := by
    simp [loginUser, h1u, h1p, h1find]
  have e2 : (loginUser env2 cmp2 db2 reg2 req2 now2).resp
      = .unauthorized "Invalid login credentials" := by
    simp [loginUser, h2u, h2p, h2find, h2cmp]
  rw [e1, e2]
  exact ⟨rfl, rfl⟩

/-- Witness for `login_failure_indistinguishable`: an unknown username run
against a wrong-password run on an existing user. -/
theorem login_failure_indistinguishable_witness :
    usersMatchingLogin [] "alice" = []
    ∧ usersMatchingLogin [⟨1, "bob", "bob@x.com", "hashB", "customer"⟩] "bob"
        = [⟨1, "bob", "bob@x.com", "hashB", "customer"⟩]
    ∧ loginObservable (loginUser ⟨none, none⟩ (fun _ _ => true) [] []
        ⟨some "alice", some "pw"⟩ 0).resp
      = loginObservable (loginUser ⟨none, none⟩ (fun _ _ => false)
        [⟨1, "bob", "bob@x.com", "hashB", "customer"⟩] [] ⟨some "bob", some "wrong"⟩ 0).resp
    ∧ loginObservable (loginUser ⟨none, none⟩ (fun _ _ => true) [] []
        ⟨some "alice", some "pw"⟩ 0).resp = (401, "Invalid login credentials") := by
  have h := login_failure_indistinguishable ⟨none, none⟩ (fun _ _ => true) [] []
    ⟨some "alice", some "pw"⟩ 0 ⟨none, none⟩ (fun _ _ => false)
    [⟨1, "bob", "bob@x.com", "hashB", "customer"⟩] [] ⟨some "bob", some "wrong"⟩ 0
    ⟨1, "bob", "bob@x.com", "hashB", "customer"⟩ []
    (by decide) (by decide) (by decide) (by decide) (by decide) (by decide) rfl
  exact ⟨by decide, by decide, h.1, h.2⟩

/-! ## Claim C7 — logout totality and idempotence -/

/-- Claim C7. Logout always returns 200 and clears the cookie, for every
registry state and every cookie (registered token, unregistered token, or
none); a presented non-empty token is no longer valid afterwards; and running
logout a second time on the resulting registry yields the identical outcome,
success included. -/
theorem logout_total_idempotent (registry : List TokenStr) (cookie : Option TokenStr) :
    (logoutUser registry cookie).status = 200
    ∧ (logoutUser registry cookie).cookieCleared = true
    ∧ (∀ ts, cookie = some ts → tsFalsy ts = false →
        isValidToken (logoutUser registry cookie).registry ts = false)
    ∧ logoutUser (logoutUser registry cookie).registry cookie = logoutUser registry cookie := by
  refine ⟨rfl, rfl, ?_, ?_⟩
  · rintro ts rfl hf
    simp [logoutUser, hf, isValidToken, List.elem_eq_mem, List.mem_filter]
  · match cookie with
    | none => rfl
    | some ts =>
      by_cases hf : tsFalsy ts
      · simp [logoutUser, hf]
      · simp [logoutUser, hf, filter_idem]

/-- Witness for `logout_total_idempotent`: removing a registered token. -/
theorem logout_total_idempotent_witness :
    tsFalsy (TokenStr.garbage "tok") = false
    ∧ isValidToken (logoutUser [TokenStr.garbage "tok", TokenStr.garbage "other"]
        (some (TokenStr.garbage "tok"))).registry (TokenStr.garbage "tok") = false :=
  ⟨rfl, ((logout_total_idempotent [TokenStr.garbage "tok", TokenStr.garbage "other"]
    (some (TokenStr.garbage "tok"))).2.2.1 (TokenStr.garbage "tok") rfl rfl)⟩

/-! ## Claim C8 — registration conflict and response shape -/

/-- Claim C8. With all fields present: when a stored user matches the
submitted username or email exactly, registration answers 409 Conflict and
changes neither the user store nor the registry; otherwise it answers 201
with the access token and the public user fields, sets the refresh-token
cookie, and records the refresh token in the registry. The response, registry
and cookie do not depend on the password-hash function, so the hash can never
appear in them. -/
theorem register_conflict_or_creates (env : Env) (hash : String → String) (nextId : Nat)
    (db : List UserRecord) (registry : List TokenStr) (req : RegisterReq) (now : Nat)
    (u e p : String)
    (hqu : req.username = some u) (hqe : req.email = some e) (hqp : req.password = some p)
    (hu : u ≠ "") (he : e ≠ "") (hp : p ≠ "") :
    (usersMatchingUsernameOrEmail db u e ≠ [] →
      (registerUser env hash nextId db registry req now).resp
        = .conflict "Username or email already taken"
      ∧ (registerUser env hash nextId db registry req now).db = db
      ∧ (registerUser env hash nextId db registry req now).registry = registry
      ∧ (registerUser env hash nextId db registry req now).cookie = none)
    ∧ (usersMatchingUsernameOrEmail db u e = [] →
      (registerUser env hash nextId db registry req now).resp
        = .created "User registered successfully"
            (createTokenPair env ⟨nextId, u, e, roleOrDefault req.role⟩ now).accessToken
            ⟨nextId, u, e, roleOrDefault req.role⟩
      ∧ (registerUser env hash nextId db registry req now).cookie
        = some (.signed (createTokenPair env ⟨nextId, u, e, roleOrDefault req.role⟩ now).refreshToken)
      ∧ (registerUser env hash nextId db registry req now).registry
        = registry
          ++ [.signed (createTokenPair env ⟨nextId, u, e, roleOrDefault req.role⟩ now).refreshToken]
      ∧ isValidToken (registerUser env hash nextId db registry req now).registry
          (.signed (createTokenPair env ⟨nextId, u, e, roleOrDefault req.role⟩ now).refreshToken)
        = true)
    ∧ (∀ hash2 : String → String,
        (registerUser env hash nextId db registry req now).resp
          = (registerUser env hash2 nextId db registry req now).resp
        ∧ (registerUser env hash nextId db registry req now).registry
          = (registerUser env hash2 nextId db registry req now).registry
        ∧ (registerUser env hash nextId db registry req now).cookie
          = (registerUser env hash2 nextId db registry req now).cookie) := by
  refine ⟨?_, ?_, ?_⟩
  · intro hconf
    simp [registerUser, fieldTruthy, hqu, hqe, hqp, hu, he, hp, hconf]
  · intro hconf
    simp [registerUser, fieldTruthy, hqu, hqe, hqp, hu, he, hp, hconf, isValidToken,
      List.elem_eq_mem]
  · intro hash2
    by_cases hconf : usersMatchingUsernameOrEmail db u e = []
    · simp [registerUser, fieldTruthy, hqu, hqe, hqp, hu, he, hp, hconf]
    · simp [registerUser, fieldTruthy, hqu, hqe, hqp, hu, he, hp, hconf]

/-- Witness for `register_conflict_or_creates`: a duplicate-username request
answers 409 without creating a user; a fresh request answers 201. -/
theorem register_conflict_or_creates_witness :
    ((some "alice" : Option String) = some "alice" ∧ ("alice" : String) ≠ "")
    ∧ usersMatchingUsernameOrEmail [⟨1, "alice", "alice@x.com", "HASH", "customer"⟩]
        "alice" "new@x.com" ≠ []
    ∧ (registerUser ⟨none, none⟩ (fun s => s ++ "#h") 2
        [⟨1, "alice", "alice@x.com", "HASH", "customer"⟩] []
        ⟨some "alice", some "new@x.com", some "Passw0rd", none⟩ 0).resp
      = .conflict "Username or email already taken"
    ∧ (registerUser ⟨none, none⟩ (fun s => s ++ "#h") 2
        [⟨1, "alice", "alice@x.com", "HASH", "customer"⟩] []
        ⟨some "alice", some "new@x.com", some "Passw0rd", none⟩ 0).db
      = [⟨1, "alice", "alice@x.com", "HASH", "customer"⟩]
    ∧ usersMatchingUsernameOrEmail [⟨1, "alice", "alice@x.com", "HASH", "customer"⟩]
        "bob" "bob@x.com" = []
    ∧ (registerUser ⟨none, none⟩ (fun s => s ++ "#h") 2
        [⟨1, "alice", "alice@x.com", "HASH", "customer"⟩] []
        ⟨some "bob", some "bob@x.com", some "Passw0rd", none⟩ 0).resp
      = .created "User registered successfully"
          (createTokenPair ⟨none, none⟩ ⟨2, "bob", "bob@x.com", "customer"⟩ 0).accessToken
          ⟨2, "bob", "bob@x.com", "customer"⟩ := by
  have hc := register_conflict_or_creates ⟨none, none⟩ (fun s => s ++ "#h") 2
    [⟨1, "alice", "alice@x.com", "HASH", "customer"⟩] []
    ⟨some "alice", some "new@x.com", some "Passw0rd", none⟩ 0
    "alice" "new@x.com" "Passw0rd" rfl rfl rfl (by decide) (by decide) (by decide)
  have hs := register_conflict_or_creates ⟨none, none⟩ (fun s => s ++ "#h") 2
    [⟨1, "alice", "alice@x.com", "HASH", "customer"⟩] []
    ⟨some "bob", some "bob@x.com", some "Passw0rd", none⟩ 0
    "bob" "bob@x.com" "Passw0rd" rfl rfl rfl (by decide) (by decide) (by decide)
  refine ⟨⟨rfl, by decide⟩, by decide, (hc.1 (by decide)).1, (hc.1 (by decide)).2.1,
    by decide, (hs.2.1 (by decide)).1⟩

/-! ## Claim C9 — admin role accepted at registration -/

/-- Claim C9. A registration request that carries role `admin` and passes the
route's role validation creates a user record whose role is `admin` and issues
an access token and a refresh token whose payload role is `admin`; the
`customer` default is the destructuring default, applied exactly when the role
field is omitted. -/
theorem register_admin_role_honored (env : Env) (hash : String → String) (nextId : Nat)
    (db : List UserRecord) (registry : List TokenStr) (req : RegisterReq) (now : Nat)
    (u e p : String)
    (hqu : req.username = some u) (hqe : req.email = some e) (hqp : req.password = some p)
    (hu : u ≠ "") (he : e ≠ "") (hp : p ≠ "")
    (hrole : req.role = some "admin") (_hvalid : roleFieldValid req.role = true)
    (hconf : usersMatchingUsernameOrEmail db u e = []) :
    (registerUser env hash nextId db registry req now).db
      = db ++ [⟨nextId, u, e, hash p, "admin"⟩]
    ∧ (registerUser env hash nextId db registry req now).resp
      = .created "User registered successfully"
          (createTokenPair env ⟨nextId, u, e, "admin"⟩ now).accessToken ⟨nextId, u, e, "admin"⟩
    ∧ (registerUser env hash nextId db registry req now).cookie
      = some (.signed (createTokenPair env ⟨nextId, u, e, "admin"⟩ now).refreshToken)
    ∧ (createTokenPair env ⟨nextId, u, e, "admin"⟩ now).accessToken.payload.role = "admin"
    ∧ (createTokenPair env ⟨nextId, u, e, "admin"⟩ now).refreshToken.payload.role = "admin"
    ∧ (∀ r : String, roleOrDefault (some r) = r)
    ∧ roleOrDefault none = "customer" := by
  refine ⟨?_, ?_, ?_, rfl, rfl, fun r => rfl, rfl⟩ <;>
    simp [registerUser, fieldTruthy, hqu, hqe, hqp, hu, he, hp, hconf, hrole, roleOrDefault]

/-- Witness for `register_admin_role_honored`: an unauthenticated request with
role `admin` creates an admin user and admin-role tokens. -/
theorem register_admin_role_honored_witness :
    roleFieldValid (some "admin") = true
    ∧ usersMatchingUsernameOrEmail [] "eve" "eve@x.com" = []
    ∧ (registerUser ⟨none, none⟩ (fun s => s ++ "#h") 1 [] []
        ⟨some "eve", some "eve@x.com", some "Passw0rd", some "admin"⟩ 0).db
      = [⟨1, "eve", "eve@x.com", "Passw0rd#h", "admin"⟩]
    ∧ (createTokenPair ⟨none, none⟩ ⟨1, "eve", "eve@x.com", "admin"⟩ 0).accessToken.payload.role
      = "admin" := by
  have h := register_admin_role_honored ⟨none, none⟩ (fun s => s ++ "#h") 1 [] []
    ⟨some "eve", some "eve@x.com", some "Passw0rd", some "admin"⟩ 0
    "eve" "eve@x.com" "Passw0rd" rfl rfl rfl (by decide) (by decide) (by decide) rfl rfl rfl
  exact ⟨rfl, rfl, h.1, h.2.2.2.1⟩

/-! ## Claim C10 — logout frame property -/

/-- Claim C10. Logout with a non-empty cookie token removes exactly the
registry entries equal to that token: an entry survives the logout exactly
when it was present before and differs from the presented token; with an
empty (falsy) cookie value the registry is left entirely unchanged. -/
theorem logout_removes_exactly_presented (registry : List TokenStr) (t : TokenStr) :
    (tsFalsy t = false →
      ∀ s, s ∈ (logoutUser registry (some t)).registry ↔ s ∈ registry ∧ s ≠ t)
    ∧ (tsFalsy t = true → (logoutUser registry (some t)).registry = registry) := by
  constructor
  · intro hf s
    simp [logoutUser, hf, List.mem_filter]
  · intro hf
    simp [logoutUser, hf]

/-- Witness for `logout_removes_exactly_presented`: an unrelated token
survives the logout of another token. -/
theorem logout_removes_exactly_presented_witness :
    tsFalsy (TokenStr.garbage "a") = false
    ∧ (TokenStr.garbage "b" ∈ (logoutUser [TokenStr.garbage "a", TokenStr.garbage "b"]
          (some (TokenStr.garbage "a"))).registry
        ↔ TokenStr.garbage "b" ∈ [TokenStr.garbage "a", TokenStr.garbage "b"]
          ∧ TokenStr.garbage "b" ≠ TokenStr.garbage "a") :=
  ⟨rfl, (logout_removes_exactly_presented [TokenStr.garbage "a", TokenStr.garbage "b"]
    (TokenStr.garbage "a")).1 rfl (TokenStr.garbage "b")⟩

end CarShop
